import Mathlib

/-!
Verification of the WhatsApp Flow data-endpoint service (Dineshkr23/flow-api-test).

This file shallowly embeds the parts of the JavaScript source relevant to the
frozen claims:

* `src/utils/encryption.js` — the transport codec (`encryptResponse`, the
  symmetric half of `decryptRequest`, `validateSignature`);
* `src/services/flowProcessor.js` — the flow action state machine
  (`processFlowAction` and its handlers, `saveUserResponses`,
  `processEncryptedFlowRequest`);
* `src/routes/flows.js` — the encrypted `/data-endpoint` handler with its
  multi-tenant resolution loop.

Byte buffers are modelled as `List Nat` with values below 256.  Cryptographic
primitives supplied by node's `crypto` module (AES-128-GCM, base64, JSON
serialization) are not code of this repository; they are abstracted as a
record of functions (`CodecPrims`) and theorems take their documented
inverse properties as hypotheses.  The asynchronous database calls of the
state machine are modelled by explicit state passing over a `Store` value.
-/

/-! ## Transport codec (`src/utils/encryption.js`) -/

/-- Model of one step of the IV flip in `encryptResponse` (lines 93-96):
JavaScript `~b` on a byte value `b` yields the signed 32-bit value `-(b+1)`,
and `Buffer.from` coerces that number back to a byte by reduction mod 256. -/
def flipByte (b : Nat) : Nat :=
  ((-(b : Int) - 1) % 256).toNat

/-- The `flipped_iv` array built by `encryptResponse` from the request IV. -/
def flipIV (iv : List Nat) : List Nat :=
  iv.map flipByte

/-- The external cryptographic primitives used by the codec, abstracted:
AES-128-GCM encryption returning (ciphertext, tag), AES-128-GCM decryption
returning `none` on authentication failure, JSON serialization to UTF-8
bytes and parsing back, and base64 encoding to the wire type `W`. -/
structure CodecPrims (α W : Type) where
  aesGcmEnc : List Nat → List Nat → List Nat → List Nat × List Nat
  aesGcmDec : List Nat → List Nat → List Nat → List Nat → Option (List Nat)
  jsonStringify : α → List Nat
  jsonParse : List Nat → Option α
  base64Encode : List Nat → W
  base64Decode : W → List Nat

/-- Function `encryptResponse(response, aesKeyBuffer, initialVectorBuffer)`
(`src/utils/encryption.js` lines 91-110): flip every IV byte, encrypt the
JSON-serialized response with AES-128-GCM under the flipped IV, and emit
base64 of ciphertext concatenated with the auth tag. -/
def encryptResponse {α W : Type} (P : CodecPrims α W) (response : α)
    (aesKeyBuffer initialVectorBuffer : List Nat) : W :=
  let flipped_iv := flipIV initialVectorBuffer
  let ct := P.aesGcmEnc aesKeyBuffer flipped_iv (P.jsonStringify response)
  P.base64Encode (ct.1 ++ ct.2)

/-- The symmetric (AES-GCM) half of `decryptRequest`
(`src/utils/encryption.js` lines 57-82): base64-decode the flow data, split
off the trailing 16-byte auth tag (`subarray(0, -16)` / `subarray(-16)`),
decrypt with the AES key and the given IV, and JSON-parse the plaintext.
`none` models the thrown exception on authentication or parse failure. -/
def decryptRequestFlowData {α W : Type} (P : CodecPrims α W)
    (encrypted_flow_data : W) (aesKeyBuffer initialVectorBuffer : List Nat) :
    Option α :=
  let flowDataBuffer := P.base64Decode encrypted_flow_data
  let body := flowDataBuffer.take (flowDataBuffer.length - 16)
  let tag := flowDataBuffer.drop (flowDataBuffer.length - 16)
  match P.aesGcmDec aesKeyBuffer initialVectorBuffer body tag with
  | some pt => P.jsonParse pt
  | none => none

/-- Trivial instantiation of the abstract primitives, used to exhibit
concrete witnesses: the "cipher" is the identity with a constant 16-byte
tag, payloads are single numbers. -/
def trivCodecPrims : CodecPrims Nat (List Nat) where
  aesGcmEnc := fun _ _ m => (m, List.replicate 16 0)
  aesGcmDec := fun _ _ ct _ => some ct
  jsonStringify := fun n => [n]
  jsonParse := fun l => match l with | [n] => some n | _ => none
  base64Encode := fun l => l
  base64Decode := fun l => l

theorem flipByte_eq (b : Nat) (hb : b < 256) : flipByte b = 255 - b := by
  unfold flipByte
  omega

/-- C1: Encrypt-then-decrypt round trip: for every payload, AES key and
IV, decrypting the output of `encryptResponse` (which encrypts under the
complemented IV) with the same key and the complemented IV recovers the
payload.  The hypotheses are the documented properties of the external
primitives: base64 and JSON round-trip, AES-GCM decryption inverts
encryption, and GCM tags are 16 bytes. -/
theorem encryptResponse_decryptRequest_roundtrip {α W : Type}
    (P : CodecPrims α W)
    (hb64 : ∀ l, P.base64Decode (P.base64Encode l) = l)
    (hgcm : ∀ k iv m,
      P.aesGcmDec k iv (P.aesGcmEnc k iv m).1 (P.aesGcmEnc k iv m).2 = some m)
    (htag : ∀ k iv m, (P.aesGcmEnc k iv m).2.length = 16)
    (hjson : ∀ x, P.jsonParse (P.jsonStringify x) = some x)
    (payload : α) (key iv : List Nat) :
    decryptRequestFlowData P (encryptResponse P payload key iv) key (flipIV iv)
      = some payload := by
  unfold decryptRequestFlowData encryptResponse
  rw [hb64]
  simp only [List.length_append, htag, Nat.add_sub_cancel, List.take_left,
    List.drop_left, hgcm, hjson]

/-- Witness for C1 at a concrete payload, key and IV using the trivial
primitive instantiation. -/
theorem encryptResponse_decryptRequest_roundtrip_witness :
    decryptRequestFlowData trivCodecPrims
      (encryptResponse trivCodecPrims 7 [1, 2] [3, 4]) [1, 2] (flipIV [3, 4])
      = some 7 :=
  encryptResponse_decryptRequest_roundtrip trivCodecPrims
    (fun _ => rfl) (fun _ _ _ => rfl) (fun _ _ _ => rfl) (fun _ => rfl)
    7 [1, 2] [3, 4]

/-- C4: The IV used by response encryption is the byte-wise one's
complement of the request IV: at every index the flipped IV holds
`255 - b` (the JS `~` result coerced to a byte), and the flipped IV is
never equal to the original IV. -/
theorem flipIV_complement (iv : List Nat) (i : Nat) (hi : i < iv.length)
    (hb : ∀ b ∈ iv, b < 256) :
    (flipIV iv).getD i 0 = 255 - iv.getD i 0 ∧ flipIV iv ≠ iv := by
  have hmem : iv.getD i 0 ∈ iv := by
    rw [List.getD_eq_getElem iv 0 hi]
    exact List.getElem_mem hi
  have hlt : iv.getD i 0 < 256 := hb _ hmem
  have hflip : (flipIV iv).getD i 0 = flipByte (iv.getD i 0) := by
    unfold flipIV
    rw [List.getD_eq_getElem iv 0 hi,
      List.getD_eq_getElem (iv.map flipByte) 0 (by simpa using hi)]
    simp
  constructor
  · rw [hflip, flipByte_eq _ hlt]
  · intro heq
    have : (flipIV iv).getD i 0 = iv.getD i 0 := by rw [heq]
    rw [hflip] at this
    unfold flipByte at this
    omega

/-- Witness for C4 at a concrete IV and index. -/
theorem flipIV_complement_witness :
    (flipIV [0, 170, 255]).getD 1 0 = 255 - [0, 170, 255].getD 1 0 ∧
      flipIV [0, 170, 255] ≠ [0, 170, 255] :=
  flipIV_complement [0, 170, 255] 1 (by decide) (by decide)

/-! ## Signature verifier (`validateSignature`, `src/utils/encryption.js` 150-177) -/

/-- Model of JavaScript `str.replace(pat, "")`: remove the first occurrence
of `pat` from the character list (JS `String.prototype.replace` with a
string pattern replaces only the first match). -/
def removeFirst (pat : List Char) : List Char → List Char
  | [] => []
  | c :: rest =>
    if pat.isPrefixOf (c :: rest) then (c :: rest).drop pat.length
    else c :: removeFirst pat rest

def removeFirstStr (pat s : String) : String :=
  ⟨removeFirst pat.data s.data⟩

theorem removeFirst_cancel (pat l : List Char) (hp : pat ≠ []) :
    removeFirst pat (pat ++ l) = l := by
  match pat with
  | [] => exact absurd rfl hp
  | c :: p =>
    have hpre : (c :: p).isPrefixOf (c :: (p ++ l)) = true := by
      rw [ List.isPrefixOf_iff_prefix]
      exact ⟨l, rfl⟩
    show removeFirst (c :: p) (c :: (p ++ l)) = l
    rw [removeFirst, if_pos hpre]
    exact List.drop_left _ _

theorem removeFirstStr_cancel (pat d : String) (hp : pat ≠ "") :
    removeFirstStr pat (pat ++ d) = d := by
  unfold removeFirstStr
  have hd : (pat ++ d).data = pat.data ++ d.data := rfl
  have hpd : pat.data ≠ [] := by
    intro h
    exact hp (congrArg String.mk h)
  rw [hd, removeFirst_cancel pat.data d.data hpd]

/-- The exceptions the body of `validateSignature` can raise: calling
`.replace` on an absent header (TypeError) or `crypto.timingSafeEqual` on
buffers of different length (RangeError).  Both are caught by the
function's `try`/`catch`, which returns `false`. -/
inductive SigErr
  | typeError
  | rangeError
deriving DecidableEq

/-- The body of `validateSignature` (inside its `try`): skip with `true`
when no app secret is configured (`!appSecret`, i.e. absent or empty);
otherwise strip the first `"sha256="` from the header, compute the HMAC
hex digest of the raw body, and compare with `crypto.timingSafeEqual`
(which throws on length mismatch).  `hmacHex` abstracts node's
HMAC-SHA256 hex digest. -/
def validateSignatureE (hmacHex : String → List Nat → String)
    (rawBody : List Nat) (signature appSecret : Option String) :
    Except SigErr Bool :=
  match appSecret with
  | none => .ok true
  | some s =>
    if s = "" then .ok true
    else
      match signature with
      | none => .error SigErr.typeError
      | some sig =>
        let sigStr := removeFirstStr "sha256=" sig
        let digest := hmacHex s rawBody
        if sigStr.length = digest.length then .ok (decide (sigStr = digest))
        else .error SigErr.rangeError

/-- Function `validateSignature(rawBody, signature, appSecret)`: the body wrapped in
the source's `try`/`catch (error) { return false; }`. -/
def validateSignature (hmacHex : String → List Nat → String)
    (rawBody : List Nat) (signature appSecret : Option String) : Bool :=
  match validateSignatureE hmacHex rawBody signature appSecret with
  | .ok b => b
  | .error _ => false

/-- C10: `validateSignature` is total and never raises: with no app
secret (absent or empty) it returns `true` for every input; with a secret
configured it returns `false` — the catch-all maps every thrown error to
`false` — on a missing header, and on any header whose stripped value
differs from the HMAC hex digest (covering non-`"sha256="`-prefixed
headers and length mismatches). -/
theorem validateSignature_total_behavior (hmacHex : String → List Nat → String)
    (rawBody : List Nat) (signature appSecret : Option String) :
    ((appSecret = none ∨ appSecret = some "") →
      validateSignature hmacHex rawBody signature appSecret = true)
    ∧ (∀ s, appSecret = some s → s ≠ "" →
        ((signature = none →
            validateSignature hmacHex rawBody signature appSecret = false)
          ∧ (∀ sig, signature = some sig →
              removeFirstStr "sha256=" sig ≠ hmacHex s rawBody →
              validateSignature hmacHex rawBody signature appSecret = false))) := by
  constructor
  · rintro (h | h) <;> subst h <;> simp [validateSignature, validateSignatureE]
  · intro s hs hne
    subst hs
    constructor
    · intro hsig
      subst hsig
      simp [validateSignature, validateSignatureE, hne]
    · intro sig hsig hneq
      subst hsig
      by_cases hl :
          (removeFirstStr "sha256=" sig).length = (hmacHex s rawBody).length
      · simp [validateSignature, validateSignatureE, hne, hl, hneq]
      · simp [validateSignature, validateSignatureE, hne, hl]

/-- Concrete HMAC model for witnesses: secret "x" digests to "aa",
anything else to "bb". -/
def hmacModelW : String → List Nat → String :=
  fun s _ => if s = "x" then "aa" else "bb"

/-- Witness for C10: skip without a secret; `false` on a missing header
and on a mismatching header when the secret "y" is configured. -/
theorem validateSignature_total_behavior_witness :
    validateSignature hmacModelW [1] none none = true
    ∧ validateSignature hmacModelW [1] none (some "y") = false
    ∧ validateSignature hmacModelW [1] (some "zz") (some "y") = false :=
  ⟨(validateSignature_total_behavior hmacModelW [1] none none).1 (Or.inl rfl),
   ((validateSignature_total_behavior hmacModelW [1] none (some "y")).2
      "y" rfl (by decide)).1 rfl,
   ((validateSignature_total_behavior hmacModelW [1] (some "zz") (some "y")).2
      "y" rfl (by decide)).2 "zz" rfl (by decide)⟩

/-- One step of the control flow of `processEncryptedFlowRequest`
(`src/services/flowProcessor.js` 529-607). -/
inductive ProcStep
  | sigValidate (ok : Bool)
  | sigFailureLogged
  | decryptCall
  | flowActionProcessed
  | encryptCall
deriving DecidableEq

/-- Control-flow trace of `processEncryptedFlowRequest`: the source calls
`validateSignature` and, when it fails, only logs the failure — the
`throw new Error("Invalid signature")` at line 558 is commented out
("Commented out for testing") — then unconditionally proceeds to
`decryptRequest`, the flow action, and response encryption. -/
def processEncryptedFlowRequestSteps (sigOk decryptOk : Bool) : List ProcStep :=
  [ProcStep.sigValidate sigOk] ++
    (if sigOk then [] else [ProcStep.sigFailureLogged]) ++
    [ProcStep.decryptCall] ++
    (if decryptOk then [ProcStep.flowActionProcessed, ProcStep.encryptCall]
     else [])

/-- C5 divergence: A body signed with secret `s1` but verified
against a configured secret `s2 ≠ s1` (distinct digests) makes
`validateSignature` return `false`; yet the decryption step still occurs
in the handler's trace, because the rejection is commented out in the
source. -/
theorem sigFailure_still_decrypts (hmacHex : String → List Nat → String)
    (rawBody : List Nat) (s1 s2 : String) (h2 : s2 ≠ "")
    (hneq : hmacHex s1 rawBody ≠ hmacHex s2 rawBody) (decryptOk : Bool) :
    validateSignature hmacHex rawBody
        (some ("sha256=" ++ hmacHex s1 rawBody)) (some s2) = false
    ∧ ProcStep.decryptCall ∈ processEncryptedFlowRequestSteps false decryptOk := by
  constructor
  · have hstrip : removeFirstStr "sha256=" ("sha256=" ++ hmacHex s1 rawBody)
        = hmacHex s1 rawBody :=
      removeFirstStr_cancel "sha256=" (hmacHex s1 rawBody) (by decide)
    by_cases hl : (hmacHex s1 rawBody).length = (hmacHex s2 rawBody).length
    · simp [validateSignature, validateSignatureE, h2, hstrip, hl, hneq]
    · simp [validateSignature, validateSignatureE, h2, hstrip, hl]
  · simp [processEncryptedFlowRequestSteps]

/-- Witness for C5's divergence theorem at a concrete HMAC model, body and
secrets. -/
theorem sigFailure_still_decrypts_witness :
    validateSignature hmacModelW [1]
        (some ("sha256=" ++ hmacModelW "x" [1])) (some "y") = false
    ∧ ProcStep.decryptCall ∈ processEncryptedFlowRequestSteps false true :=
  sigFailure_still_decrypts hmacModelW [1] "x" "y" (by decide) (by decide) true

/-! ## Tenant resolution loop (`src/routes/flows.js` 385-432) -/

/-- A tenant credential record (`src/models/Business.js` fields used by
the data endpoint). -/
structure Business where
  id : String
  private_key : String
  app_secret : Option String
deriving DecidableEq

/-- The resolution loop of the encrypted `/data-endpoint` branch: for each
candidate business, `await processEncryptedFlowRequest(req, business.private_key,
business.app_secret)` either yields an encrypted response (`some`) or throws
(`none`); on the first success the loop records `decryptionSuccessful = true`
and `successfulBusiness = business` and breaks.  `tryProcess` abstracts the
whole decrypt-process-encrypt call for the fixed incoming request. -/
def runResolutionLoop (tryProcess : Business → Option String) :
    List Business → Bool × Option Business
  | [] => (false, none)
  | b :: rest =>
    match tryProcess b with
    | some _ => (true, some b)
    | none => runResolutionLoop tryProcess rest

/-- The reply the route handler produces. -/
structure EndpointReply where
  status : Nat
  contentType : Option String
  body : Option String
deriving DecidableEq

/-- The encrypted branch of `router.post("/data-endpoint")`
(`src/routes/flows.js` 385-432).  Line 386 declares the outer
`let encryptedResponse = null`; the loop body declares a *new*
`const encryptedResponse` (line 396) that shadows it and is discarded, so
the outer binding is still `null` at `res.send(encryptedResponse)`
(line 432).  On no success the handler returns status 421. -/
def dataEndpointEncrypted (tryProcess : Business → Option String)
    (businesses : List Business) : EndpointReply :=
  let outerEncryptedResponse : Option String := none
  match runResolutionLoop tryProcess businesses with
  | (false, _) =>
    { status := 421, contentType := some "application/json",
      body := some "Decryption failed" }
  | (true, _) =>
    { status := 200, contentType := some "text/plain",
      body := outerEncryptedResponse }

theorem runResolutionLoop_resolves (tryProcess : Business → Option String)
    (businesses : List Business) (T : Business) (r : String)
    (hT : T ∈ businesses) (hTr : tryProcess T = some r)
    (hothers : ∀ b ∈ businesses, b ≠ T → tryProcess b = none) :
    (runResolutionLoop tryProcess businesses).2 = some T := by
  induction businesses with
  | nil => cases hT
  | cons b rest ih =>
    by_cases hb : b = T
    · subst hb
      simp [runResolutionLoop, hTr]
    · have hbn : tryProcess b = none :=
        hothers b (List.mem_cons_self b rest) hb
      have hTrest : T ∈ rest := by
        cases hT with
        | head => exact absurd rfl hb
        | tail _ h => exact h
      rw [runResolutionLoop, hbn]
      exact ih hTrest (fun x hx hne => hothers x (List.mem_cons_of_mem b hx) hne)

theorem runResolutionLoop_all_fail (tryProcess : Business → Option String)
    (businesses : List Business)
    (hall : ∀ b ∈ businesses, tryProcess b = none) :
    runResolutionLoop tryProcess businesses = (false, none) := by
  induction businesses with
  | nil => rfl
  | cons b rest ih =>
    rw [runResolutionLoop, hall b (List.mem_cons_self b rest)]
    exact ih (fun x hx => hall x (List.mem_cons_of_mem b hx))

/-- C2: With distinct credentials — decryption succeeds exactly for
tenant `T` — the resolution loop resolves `T` regardless of its position
in the candidate list; and when no candidate's key can decrypt, the
endpoint replies with the distinguished stale-key status 421. -/
theorem resolver_resolves_tenant (tryProcess : Business → Option String)
    (businesses : List Business) (T : Business) (r : String) :
    ((T ∈ businesses → tryProcess T = some r →
        (∀ b ∈ businesses, b ≠ T → tryProcess b = none) →
        (runResolutionLoop tryProcess businesses).2 = some T))
    ∧ ((∀ b ∈ businesses, tryProcess b = none) →
        (dataEndpointEncrypted tryProcess businesses).status = 421) := by
  constructor
  · intro hT hTr hothers
    exact runResolutionLoop_resolves tryProcess businesses T r hT hTr hothers
  · intro hall
    unfold dataEndpointEncrypted
    rw [runResolutionLoop_all_fail tryProcess businesses hall]

/-- Concrete candidate tenants for witnesses. -/
def bizA : Business := { id := "A", private_key := "ka", app_secret := none }

def bizB : Business := { id := "B", private_key := "kb", app_secret := none }

/-- Decryption model for the witness: only `bizB`'s key unwraps the
request. -/
def tryProcessW (b : Business) : Option String :=
  if b.id = "B" then some "ZW5j" else none

/-- Witness for C2: `bizB` is resolved from the second position, and with
no matching candidate the endpoint status is 421. -/
theorem resolver_resolves_tenant_witness :
    (runResolutionLoop tryProcessW [bizA, bizB]).2 = some bizB
    ∧ (dataEndpointEncrypted (fun _ => none) [bizA, bizB]).status = 421 :=
  ⟨(resolver_resolves_tenant tryProcessW [bizA, bizB] bizB "ZW5j").1
      (by decide) (by decide) (by decide),
   (resolver_resolves_tenant (fun _ => none) [bizA, bizB] bizB "ZW5j").2
      (fun b _ => rfl)⟩

theorem runResolutionLoop_success (tryProcess : Business → Option String)
    (businesses : List Business) (b0 : Business) (r : String)
    (hb : b0 ∈ businesses) (h : tryProcess b0 = some r) :
    (runResolutionLoop tryProcess businesses).1 = true := by
  induction businesses with
  | nil => cases hb
  | cons b rest ih =>
    rw [runResolutionLoop]
    cases htb : tryProcess b with
    | some s => rfl
    | none =>
      cases hb with
      | head => rw [htb] at h; cases h
      | tail _ hmem => exact ih hmem

/-- C3 divergence: Even when some candidate's decryption succeeds,
the body the endpoint sends is `none` (`res.send` of the still-`null`
outer variable), not the codec's base64 output: the loop's inner
`const encryptedResponse` shadows the outer binding. -/
theorem endpoint_sends_null_body (tryProcess : Business → Option String)
    (businesses : List Business) (b0 : Business) (r : String)
    (hb : b0 ∈ businesses) (h : tryProcess b0 = some r) :
    (dataEndpointEncrypted tryProcess businesses).status = 200
    ∧ (dataEndpointEncrypted tryProcess businesses).body = none := by
  have hs : (runResolutionLoop tryProcess businesses).1 = true :=
    runResolutionLoop_success tryProcess businesses b0 r hb h
  unfold dataEndpointEncrypted
  cases hloop : runResolutionLoop tryProcess businesses with
  | mk ok sb =>
    rw [hloop] at hs
    cases ok with
    | false => cases hs
    | true => exact ⟨rfl, rfl⟩

/-- Witness for C3's divergence theorem: one successful candidate, yet the
sent body is `none`. -/
theorem endpoint_sends_null_body_witness :
    (dataEndpointEncrypted tryProcessW [bizA, bizB]).status = 200
    ∧ (dataEndpointEncrypted tryProcessW [bizA, bizB]).body = none :=
  endpoint_sends_null_body tryProcessW [bizA, bizB] bizB "ZW5j"
    (by decide) (by decide)

/-! ## Flow action state machine (`src/services/flowProcessor.js`) -/

/-- A stored flow session (`src/models/FlowSession.js` fields the engine
uses).  `session_data` is stored serialized with `JSON.stringify`; the
model keeps the association list itself. -/
structure SessionRec where
  id : String
  flow_id : String
  current_screen : String
  session_data : List (String × String)
deriving DecidableEq

/-- A stored answer record (`src/models/FlowResponse.js`): one row per
(session, screen, field) with a copy of the full submission
(`response_data`). -/
structure FlowResponseRec where
  flow_id : String
  session_id : String
  screen_id : String
  field_name : String
  field_value : String
  response_data : List (String × String)
deriving DecidableEq

/-- The persistent stores the engine touches: `FlowSession` and
`FlowResponse` collections. -/
structure Store where
  sessions : List SessionRec
  responses : List FlowResponseRec
deriving DecidableEq

/-- Lookup `FlowSession.findOne({id})`. -/
def getSession (st : Store) (sid : String) : Option SessionRec :=
  st.sessions.find? (fun s => s.id == sid)

/-- Helper `createOrUpdateSession` (flowProcessor.js 287-318):
`FlowSession.findOneAndUpdate({id}, data, {upsert: true})` — replace the
record when the id exists, insert it otherwise. -/
def createOrUpdateSession (st : Store) (r : SessionRec) : Store :=
  if st.sessions.any (fun s => s.id == r.id) then
    { st with sessions := st.sessions.map (fun s => if s.id == r.id then r else s) }
  else
    { st with sessions := st.sessions ++ [r] }

/-- Helper `updateSession` (flowProcessor.js 320-332):
`findOneAndUpdate({id}, {current_screen, session_data})` without upsert —
a missing id updates nothing. -/
def updateSession (st : Store) (sid scr : String)
    (dat : List (String × String)) : Store :=
  { st with sessions := st.sessions.map (fun s =>
      if s.id == sid then { s with current_screen := scr, session_data := dat }
      else s) }

/-- Helper `saveUserResponses` (flowProcessor.js 473-493): for each entry of the
payload, construct a new `FlowResponse` document and `save()` it — pure
insertion, one record per field, in entry order. -/
def saveUserResponses (st : Store) (sid scrId : String)
    (responses : List (String × String)) : Store :=
  { st with responses := st.responses ++ responses.map (fun p =>
      { flow_id := "default_flow", session_id := sid, screen_id := scrId,
        field_name := p.1, field_value := p.2, response_data := responses }) }

/-- The errors thrown by `processFlowAction` and its handlers. -/
inductive FlowError
  | sessionIdRequired
  | sessionNotFound
  | unknownAction
deriving DecidableEq

/-- Symbolic model of the `data` object of a response envelope, tagged by
which computation produced it (the static INIT data, `getScreenData`, the
DATA_EXCHANGE merge of `processDataExchange` output with screen data, the
COMPLETE message, the ping health payload). -/
inductive DataObj
  | initStatic
  | screenData (screenId : String)
  | exchangeData (currentScreen : String)
  | completeMsg
  | pingStatus
deriving DecidableEq

/-- The response object a handler returns; fields that a given handler
does not set are `none`. -/
structure FlowEnvelope where
  version : Option String
  screen : Option String
  data : DataObj
  session_id : Option String
deriving DecidableEq

/-- JavaScript truthiness of an optional string (`null`/`undefined`/`""`
are falsy). -/
def presentString : Option String → Option String
  | none => none
  | some s => if s = "" then none else some s

/-- Handler `handleInitAction` (flowProcessor.js 86-125): upsert a session under
the given or freshly generated id, then return the spread of
`staticData.FORM` — an object with only `screen: "FORM"` and the static
`data`, no version tag and no session id. -/
def handleInitAction (freshId : String) (st : Store) (screen : String)
    (flow_token session_id : Option String)
    (payload : Option (List (String × String))) : FlowEnvelope × Store :=
  let sessionId := (presentString session_id).getD freshId
  let flowId := (presentString flow_token).getD "default_flow"
  let st1 := createOrUpdateSession st
    { id := sessionId, flow_id := flowId, current_screen := screen,
      session_data := payload.getD [] }
  ({ version := none, screen := some "FORM", data := DataObj.initStatic,
     session_id := none }, st1)

/-- Handler `handleBackAction` (flowProcessor.js 130-162): require a session id,
fail with "Session not found" when the store has none, otherwise update
the session's screen and echo the full envelope. -/
def handleBackAction (st : Store) (screen : String)
    (session_id : Option String) (payload : Option (List (String × String))) :
    Except FlowError (FlowEnvelope × Store) :=
  match presentString session_id with
  | none => .error FlowError.sessionIdRequired
  | some sid =>
    match getSession st sid with
    | none => .error FlowError.sessionNotFound
    | some _ =>
      let st1 := updateSession st sid screen (payload.getD [])
      .ok ({ version := some "7.2", screen := some screen,
             data := DataObj.screenData screen, session_id := some sid }, st1)

/-- Routing stub `determineNextScreen` (flowProcessor.js 511-520): the routing
placeholder; the source returns `null` unconditionally. -/
def determineNextScreen (currentScreen : String)
    (payload : Option (List (String × String))) (session_id : String) :
    Option String :=
  none

/-- Handler `handleDataExchangeAction` (flowProcessor.js 167-225): require a
session id (the session itself is never looked up), append answer records
when a payload is present, then branch on `determineNextScreen`: a next
screen, or the completion screen `"SUCCESS"`.  No session record is
written in either branch. -/
def handleDataExchangeAction (st : Store) (screen : String)
    (session_id : Option String) (payload : Option (List (String × String))) :
    Except FlowError (FlowEnvelope × Store) :=
  match presentString session_id with
  | none => .error FlowError.sessionIdRequired
  | some sid =>
    let st1 := match payload with
      | some rs => saveUserResponses st sid screen rs
      | none => st
    match determineNextScreen screen payload sid with
    | some nextScreen =>
      .ok ({ version := some "7.2", screen := some nextScreen,
             data := DataObj.exchangeData screen, session_id := some sid }, st1)
    | none =>
      .ok ({ version := some "7.2", screen := some "SUCCESS",
             data := DataObj.exchangeData screen, session_id := some sid }, st1)

/-- Handler `handleCompleteAction` (flowProcessor.js 230-265): require a session
id, append final answer records when a payload is present, mark the
session `"COMPLETED"` via `updateSession` (a no-op when the session does
not exist), and return the completion envelope. -/
def handleCompleteAction (st : Store) (screen : String)
    (session_id : Option String) (payload : Option (List (String × String))) :
    Except FlowError (FlowEnvelope × Store) :=
  match presentString session_id with
  | none => .error FlowError.sessionIdRequired
  | some sid =>
    let st1 := match payload with
      | some rs => saveUserResponses st sid screen rs
      | none => st
    let st2 := updateSession st1 sid "COMPLETED" (payload.getD [])
    .ok ({ version := some "7.2", screen := some "SUCCESS",
           data := DataObj.completeMsg, session_id := some sid }, st2)

/-- A decrypted flow request (`{action, screen, flow_token, session_id,
payload}`). -/
structure FlowRequest where
  action : String
  screen : String
  flow_token : Option String
  session_id : Option String
  payload : Option (List (String × String))
deriving DecidableEq

/-- Dispatcher `processFlowAction` (flowProcessor.js 24-81): dispatch on the action
tag; unknown tags throw. -/
def processFlowAction (freshId : String) (st : Store) (req : FlowRequest) :
    Except FlowError (FlowEnvelope × Store) :=
  match req.action with
  | "INIT" =>
    .ok (handleInitAction freshId st req.screen req.flow_token req.session_id
      req.payload)
  | "BACK" => handleBackAction st req.screen req.session_id req.payload
  | "DATA_EXCHANGE" =>
    handleDataExchangeAction st req.screen req.session_id req.payload
  | "COMPLETE" => handleCompleteAction st req.screen req.session_id req.payload
  | "ping" =>
    .ok ({ version := none, screen := none, data := DataObj.pingStatus,
           session_id := none }, st)
  | _ => .error FlowError.unknownAction

theorem processFlowAction_init (freshId : String) (st : Store) (scr : String)
    (ft sidO : Option String) (pl : Option (List (String × String))) :
    processFlowAction freshId st
        { action := "INIT", screen := scr, flow_token := ft,
          session_id := sidO, payload := pl }
      = .ok (handleInitAction freshId st scr ft sidO pl) := rfl

theorem processFlowAction_back (freshId : String) (st : Store) (scr : String)
    (ft sidO : Option String) (pl : Option (List (String × String))) :
    processFlowAction freshId st
        { action := "BACK", screen := scr, flow_token := ft,
          session_id := sidO, payload := pl }
      = handleBackAction st scr sidO pl := rfl

theorem processFlowAction_dataExchange (freshId : String) (st : Store)
    (scr : String) (ft sidO : Option String)
    (pl : Option (List (String × String))) :
    processFlowAction freshId st
        { action := "DATA_EXCHANGE", screen := scr, flow_token := ft,
          session_id := sidO, payload := pl }
      = handleDataExchangeAction st scr sidO pl := rfl

theorem processFlowAction_complete (freshId : String) (st : Store)
    (scr : String) (ft sidO : Option String)
    (pl : Option (List (String × String))) :
    processFlowAction freshId st
        { action := "COMPLETE", screen := scr, flow_token := ft,
          session_id := sidO, payload := pl }
      = handleCompleteAction st scr sidO pl := rfl

/-- C6 counterexample: A DATA_EXCHANGE action against an empty
session store does not fail with a session-not-found error: it succeeds
and appends an answer record — a write — refuting the claim that all of
BACK/DATA_EXCHANGE/COMPLETE fail terminally with no writes when the
session is missing. -/
theorem dataExchange_missing_session_writes :
    processFlowAction "gen" { sessions := [], responses := [] }
        { action := "DATA_EXCHANGE", screen := "FORM", flow_token := none,
          session_id := some "s1", payload := some [("a", "1")] }
      = .ok ({ version := some "7.2", screen := some "SUCCESS",
               data := DataObj.exchangeData "FORM", session_id := some "s1" },
             { sessions := [],
               responses := [{ flow_id := "default_flow",
                               session_id := "s1",
                               screen_id := "FORM",
                               field_name := "a",
                               field_value := "1",
                               response_data := [("a", "1")] }] }) := by
  rfl

theorem updateSessionList_miss (l : List SessionRec) (sid scr : String)
    (dat : List (String × String))
    (h : l.find? (fun s => s.id == sid) = none) :
    l.map (fun s =>
        if s.id == sid then { s with current_screen := scr, session_data := dat }
        else s) = l := by
  induction l with
  | nil => rfl
  | cons s rest ih =>
    have hall := List.find?_eq_none.mp h
    have hhead : ¬((s.id == sid) = true) := hall s (List.mem_cons_self s rest)
    have htail : List.find? (fun x => x.id == sid) rest = none :=
      List.find?_eq_none.mpr (fun x hx => hall x (List.mem_cons_of_mem s hx))
    simp only [List.map_cons, if_neg hhead, ih htail]

/-- Helper fact: `updateSession` against a session id absent from the
store (`findOneAndUpdate` without upsert) matches nothing and leaves the
session list unchanged. -/
theorem updateSession_miss (st : Store) (sid scr : String)
    (dat : List (String × String)) (h : getSession st sid = none) :
    (updateSession st sid scr dat).sessions = st.sessions := by
  unfold updateSession
  exact updateSessionList_miss st.sessions sid scr dat h

/-- C6 amended: Only BACK checks session existence: BACK against a
missing session fails terminally with the session-not-found error and
performs no writes (no store is produced), while DATA_EXCHANGE and
COMPLETE against the same missing session succeed: both append the
payload's answer records, and COMPLETE's session update silently matches
nothing, leaving the session list unchanged. -/
theorem back_missing_session_no_writes (fresh : String) (st : Store)
    (scr sid : String) (ft : Option String)
    (pl : Option (List (String × String))) (rs : List (String × String))
    (hsid : sid ≠ "") (hns : getSession st sid = none) :
    processFlowAction fresh st
        { action := "BACK", screen := scr, flow_token := ft,
          session_id := some sid, payload := pl }
      = .error FlowError.sessionNotFound
    ∧ processFlowAction fresh st
        { action := "DATA_EXCHANGE", screen := scr, flow_token := ft,
          session_id := some sid, payload := some rs }
      = .ok ({ version := some "7.2", screen := some "SUCCESS",
               data := DataObj.exchangeData scr, session_id := some sid },
             saveUserResponses st sid scr rs)
    ∧ processFlowAction fresh st
        { action := "COMPLETE", screen := scr, flow_token := ft,
          session_id := some sid, payload := some rs }
      = .ok ({ version := some "7.2", screen := some "SUCCESS",
               data := DataObj.completeMsg, session_id := some sid },
             { sessions := st.sessions,
               responses := (saveUserResponses st sid scr rs).responses }) := by
  refine ⟨?_, ?_, ?_⟩
  · rw [processFlowAction_back]
    simp [handleBackAction, presentString, hsid, hns]
  · rw [processFlowAction_dataExchange]
    simp [handleDataExchangeAction, presentString, hsid, determineNextScreen]
  · rw [processFlowAction_complete]
    unfold handleCompleteAction
    simp only [presentString, if_neg hsid, Option.getD_some]
    have hu : updateSession (saveUserResponses st sid scr rs) sid "COMPLETED" rs
        = { sessions := st.sessions,
            responses := (saveUserResponses st sid scr rs).responses } := by
      unfold updateSession
      congr 1
      exact updateSessionList_miss st.sessions sid "COMPLETED" rs hns
    rw [hu]

/-- Witness for the amended C6 at a concrete empty store. -/
theorem back_missing_session_no_writes_witness :
    processFlowAction "gen" { sessions := [], responses := [] }
        { action := "BACK", screen := "FORM", flow_token := none,
          session_id := some "s1", payload := none }
      = .error FlowError.sessionNotFound
    ∧ processFlowAction "gen" { sessions := [], responses := [] }
        { action := "DATA_EXCHANGE", screen := "FORM", flow_token := none,
          session_id := some "s1", payload := some [("a", "1")] }
      = .ok ({ version := some "7.2", screen := some "SUCCESS",
               data := DataObj.exchangeData "FORM", session_id := some "s1" },
             saveUserResponses { sessions := [], responses := [] } "s1" "FORM"
               [("a", "1")])
    ∧ processFlowAction "gen" { sessions := [], responses := [] }
        { action := "COMPLETE", screen := "FORM", flow_token := none,
          session_id := some "s1", payload := some [("a", "1")] }
      = .ok ({ version := some "7.2", screen := some "SUCCESS",
               data := DataObj.completeMsg, session_id := some "s1" },
             { sessions := ({ sessions := [], responses := [] } : Store).sessions,
               responses := (saveUserResponses
                 { sessions := [], responses := [] } "s1" "FORM"
                 [("a", "1")]).responses }) :=
  back_missing_session_no_writes "gen" { sessions := [], responses := [] }
    "FORM" "s1" none none [("a", "1")] (by decide) rfl

/-- The session store used by the C7 counterexample: one session on
screen "FORM". -/
def sessionFormW : SessionRec :=
  { id := "s1", flow_id := "default_flow", current_screen := "FORM",
    session_data := [] }

/-- C7 counterexample: A DATA_EXCHANGE whose routing yields no next
screen returns the completion screen, but the stored session is untouched:
its current screen is still "FORM", not the `COMPLETED` marker the claim
requires. -/
theorem dataExchange_no_completed_marker :
    processFlowAction "gen" { sessions := [sessionFormW], responses := [] }
        { action := "DATA_EXCHANGE", screen := "FORM", flow_token := none,
          session_id := some "s1", payload := none }
      = .ok ({ version := some "7.2", screen := some "SUCCESS",
               data := DataObj.exchangeData "FORM", session_id := some "s1" },
             { sessions := [sessionFormW], responses := [] })
    ∧ sessionFormW.current_screen ≠ "COMPLETED" := by
  exact ⟨rfl, by decide⟩

/-- C7 amended: A DATA_EXCHANGE on an existing session whose routing
function yields no next screen responds with the completion screen
"SUCCESS", but leaves the session store unchanged — the session's current
screen is not set to `COMPLETED` (only the COMPLETE action does that). -/
theorem dataExchange_success_no_session_write (fresh : String) (st : Store)
    (scr sid : String) (ft : Option String)
    (pl : Option (List (String × String))) (hsid : sid ≠ "")
    (hroute : determineNextScreen scr pl sid = none) :
    ∀ e st', processFlowAction fresh st
        { action := "DATA_EXCHANGE", screen := scr, flow_token := ft,
          session_id := some sid, payload := pl }
      = .ok (e, st') →
      e.screen = some "SUCCESS" ∧ st'.sessions = st.sessions := by
  intro e st' h
  rw [processFlowAction_dataExchange] at h
  unfold handleDataExchangeAction at h
  simp only [presentString, if_neg hsid, hroute] at h
  cases pl with
  | none =>
    rw [Except.ok.injEq] at h
    obtain ⟨he, hst⟩ := Prod.mk.inj h
    subst he
    subst hst
    exact ⟨rfl, rfl⟩
  | some rs =>
    rw [Except.ok.injEq] at h
    obtain ⟨he, hst⟩ := Prod.mk.inj h
    subst he
    subst hst
    exact ⟨rfl, rfl⟩

/-- Witness for the amended C7 at the concrete single-session store. -/
theorem dataExchange_success_no_session_write_witness :
    ({ version := some "7.2", screen := some "SUCCESS",
       data := DataObj.exchangeData "FORM",
       session_id := some "s1" } : FlowEnvelope).screen = some "SUCCESS"
    ∧ ({ sessions := [sessionFormW], responses := [] } : Store).sessions
      = ({ sessions := [sessionFormW], responses := [] } : Store).sessions :=
  dataExchange_success_no_session_write "gen"
    { sessions := [sessionFormW], responses := [] } "FORM" "s1" none none
    (by decide) rfl
    { version := some "7.2", screen := some "SUCCESS",
      data := DataObj.exchangeData "FORM", session_id := some "s1" }
    { sessions := [sessionFormW], responses := [] } rfl

/-- C8 counterexample: A successful INIT with screen "FORM" returns
an envelope with `version = none` and `session_id = none`: the response
does not contain all four fields, and carries no session id at all (the
generated id is only stored server-side). -/
theorem init_response_missing_fields :
    processFlowAction "gen-1" { sessions := [], responses := [] }
        { action := "INIT", screen := "FORM", flow_token := none,
          session_id := none, payload := none }
      = .ok ({ version := none, screen := some "FORM",
               data := DataObj.initStatic, session_id := none },
             { sessions := [{ id := "gen-1",
                              flow_id := "default_flow",
                              current_screen := "FORM",
                              session_data := [] }],
               responses := [] }) := by
  rfl

/-- C8 amended: Successful BACK, DATA_EXCHANGE and COMPLETE
responses carry the protocol version "7.2", a resolved screen, a data
object and the request's session id unchanged; a successful INIT instead
returns only the screen "FORM" and the static data object, with no
version tag and no session id. -/
theorem response_envelope_fields (fresh : String) (st : Store)
    (scr sid : String) (ft : Option String)
    (pl : Option (List (String × String))) (hsid : sid ≠ "") :
    (∀ a, (a = "BACK" ∨ a = "DATA_EXCHANGE" ∨ a = "COMPLETE") →
      ∀ e st', processFlowAction fresh st
          { action := a, screen := scr, flow_token := ft,
            session_id := some sid, payload := pl } = .ok (e, st') →
        e.version = some "7.2" ∧ e.screen.isSome = true
          ∧ e.session_id = some sid)
    ∧ (∀ e st', processFlowAction fresh st
          { action := "INIT", screen := scr, flow_token := ft,
            session_id := some sid, payload := pl } = .ok (e, st') →
        e = { version := none, screen := some "FORM",
              data := DataObj.initStatic, session_id := none }) := by
  constructor
  · rintro a (rfl | rfl | rfl) e st' h
    · rw [processFlowAction_back] at h
      unfold handleBackAction at h
      simp only [presentString, if_neg hsid] at h
      cases hg : getSession st sid with
      | none => rw [hg] at h; exact Except.noConfusion h
      | some s =>
        rw [hg] at h
        rw [Except.ok.injEq, Prod.mk.injEq] at h
        obtain ⟨he, hst⟩ := h
        subst he
        exact ⟨rfl, rfl, rfl⟩
    · rw [processFlowAction_dataExchange] at h
      unfold handleDataExchangeAction at h
      simp only [presentString, if_neg hsid, determineNextScreen] at h
      rw [Except.ok.injEq, Prod.mk.injEq] at h
      obtain ⟨he, hst⟩ := h
      subst he
      exact ⟨rfl, rfl, rfl⟩
    · rw [processFlowAction_complete] at h
      unfold handleCompleteAction at h
      simp only [presentString, if_neg hsid] at h
      rw [Except.ok.injEq, Prod.mk.injEq] at h
      obtain ⟨he, hst⟩ := h
      subst he
      exact ⟨rfl, rfl, rfl⟩
  · intro e st' h
    rw [processFlowAction_init, Except.ok.injEq] at h
    exact (congrArg Prod.fst h).symm

/-- Witness for the amended C8: COMPLETE echoes the session id with
version "7.2"; INIT returns the static envelope. -/
theorem response_envelope_fields_witness :
    (({ version := some "7.2", screen := some "SUCCESS",
        data := DataObj.completeMsg,
        session_id := some "s1" } : FlowEnvelope).version = some "7.2"
      ∧ ({ version := some "7.2", screen := some "SUCCESS",
           data := DataObj.completeMsg,
           session_id := some "s1" } : FlowEnvelope).screen.isSome = true
      ∧ ({ version := some "7.2", screen := some "SUCCESS",
           data := DataObj.completeMsg,
           session_id := some "s1" } : FlowEnvelope).session_id = some "s1")
    ∧ ({ version := none, screen := some "FORM", data := DataObj.initStatic,
         session_id := none } : FlowEnvelope)
      = { version := none, screen := some "FORM", data := DataObj.initStatic,
          session_id := none } :=
  ⟨(response_envelope_fields "gen" { sessions := [], responses := [] }
      "FORM" "s1" none none (by decide)).1 "COMPLETE"
      (Or.inr (Or.inr rfl))
      { version := some "7.2", screen := some "SUCCESS",
        data := DataObj.completeMsg, session_id := some "s1" }
      { sessions := [], responses := [] } (by rfl),
   (response_envelope_fields "gen" { sessions := [], responses := [] }
      "FORM" "s1" none none (by decide)).2
      { version := none, screen := some "FORM", data := DataObj.initStatic,
        session_id := none }
      { sessions := [{ id := "s1", flow_id := "default_flow",
                       current_screen := "FORM", session_data := [] }],
        responses := [] } (by rfl)⟩

theorem handleInitAction_responses (fresh : String) (st : Store)
    (scr : String) (ft sidO : Option String)
    (pl : Option (List (String × String))) :
    ((handleInitAction fresh st scr ft sidO pl).2).responses = st.responses := by
  unfold handleInitAction createOrUpdateSession
  dsimp only
  split <;> rfl

theorem handleBackAction_responses (st : Store) (scr : String)
    (sidO : Option String) (pl : Option (List (String × String)))
    (e : FlowEnvelope) (st' : Store)
    (h : handleBackAction st scr sidO pl = .ok (e, st')) :
    st'.responses = st.responses := by
  unfold handleBackAction at h
  split at h
  · exact Except.noConfusion h
  · split at h
    · exact Except.noConfusion h
    · rw [Except.ok.injEq, Prod.mk.injEq] at h
      obtain ⟨he, hst⟩ := h
      subst hst
      rfl

theorem handleDataExchangeAction_responses (st : Store) (scr : String)
    (sidO : Option String) (pl : Option (List (String × String)))
    (e : FlowEnvelope) (st' : Store)
    (h : handleDataExchangeAction st scr sidO pl = .ok (e, st')) :
    ∃ newRecs, st'.responses = st.responses ++ newRecs := by
  unfold handleDataExchangeAction at h
  split at h
  · exact Except.noConfusion h
  · simp only [determineNextScreen] at h
    rw [Except.ok.injEq, Prod.mk.injEq] at h
    obtain ⟨he, hst⟩ := h
    subst hst
    cases pl with
    | none => exact ⟨[], (List.append_nil _).symm⟩
    | some rs => exact ⟨_, rfl⟩

theorem handleCompleteAction_responses (st : Store) (scr : String)
    (sidO : Option String) (pl : Option (List (String × String)))
    (e : FlowEnvelope) (st' : Store)
    (h : handleCompleteAction st scr sidO pl = .ok (e, st')) :
    ∃ newRecs, st'.responses = st.responses ++ newRecs := by
  unfold handleCompleteAction at h
  split at h
  · exact Except.noConfusion h
  · rw [Except.ok.injEq, Prod.mk.injEq] at h
    obtain ⟨he, hst⟩ := h
    subst hst
    cases pl with
    | none => exact ⟨[], (List.append_nil _).symm⟩
    | some rs => exact ⟨_, rfl⟩

/-- C9: The answer-record store is append-only under every engine
action: every successful `processFlowAction` leaves the existing answer
records as a prefix, only appending new ones — so a resubmitted field
yields a second record with the first unchanged, and nothing is ever
updated or deleted. -/
theorem responses_append_only (fresh : String) (st : Store)
    (req : FlowRequest) (e : FlowEnvelope) (st' : Store)
    (h : processFlowAction fresh st req = .ok (e, st')) :
    ∃ newRecs, st'.responses = st.responses ++ newRecs := by
  obtain ⟨a, scr, ft, sidO, pl⟩ := req
  unfold processFlowAction at h
  dsimp only at h
  split at h
  · rw [Except.ok.injEq] at h
    have hst : (handleInitAction fresh st scr ft sidO pl).2 = st' :=
      congrArg Prod.snd h
    refine ⟨[], ?_⟩
    rw [← hst, handleInitAction_responses, List.append_nil]
  · exact ⟨[], by
      rw [handleBackAction_responses st scr sidO pl e st' h, List.append_nil]⟩
  · exact handleDataExchangeAction_responses st scr sidO pl e st' h
  · exact handleCompleteAction_responses st scr sidO pl e st' h
  · rw [Except.ok.injEq] at h
    have hst : st = st' := congrArg Prod.snd h
    exact ⟨[], by rw [← hst, List.append_nil]⟩
  · exact Except.noConfusion h

/-- The answer store before the C9 witness's resubmission: one record for
field "country". -/
def storeResubW : Store :=
  { sessions := [],
    responses := [{ flow_id := "default_flow", session_id := "s1",
                    screen_id := "FORM", field_name := "country",
                    field_value := "US",
                    response_data := [("country", "US")] }] }

/-- The C9 witness request: the same field "country" submitted again. -/
def reqResubW : FlowRequest :=
  { action := "DATA_EXCHANGE", screen := "FORM", flow_token := none,
    session_id := some "s1", payload := some [("country", "US")] }

/-- The answer store after the resubmission: the original record
unchanged, one new record appended. -/
def storeResubW2 : Store :=
  { sessions := [],
    responses := storeResubW.responses ++
      [{ flow_id := "default_flow", session_id := "s1", screen_id := "FORM",
         field_name := "country", field_value := "US",
         response_data := [("country", "US")] }] }

/-- Witness for C9: resubmitting "country" appends a second record and
keeps the first as an unchanged prefix. -/
theorem responses_append_only_witness :
    ∃ newRecs, storeResubW2.responses = storeResubW.responses ++ newRecs :=
  responses_append_only "gen" storeResubW reqResubW
    { version := some "7.2", screen := some "SUCCESS",
      data := DataObj.exchangeData "FORM", session_id := some "s1" }
    storeResubW2 (by rfl)
